import Mathlib

/-!
Verification development for the website design-analysis backend.

The Python source (`src/backend/src/app/...`) is shallowly embedded here:
* text is modelled as `List Char` (Python `str` as a character sequence),
* machine arithmetic is `ℤ`/`ℕ`/`ℚ` (the score arithmetic in the source is
  integer arithmetic; ratios and weights are exact rationals),
* fallible Python code (functions that `raise`) is modelled with `Except`,
* external collaborators (BeautifulSoup parsing, ColorThief palette
  extraction, PIL pixel decoding, the Ollama HTTP transport, YAML parsing,
  the filesystem) are abstracted as the *data they produce*: a parsed
  document record, a palette, a grayscale pixel list, a transport outcome,
  a parsed-config record, and existence/validity flags.  All logic that the
  repository itself implements on top of those inputs is translated
  faithfully.
-/

/-! ## Character/string helpers (Python `str` operations used by the code) -/

/-- Python whitespace for `str.strip()`. -/
def isPySpace (c : Char) : Bool :=
  c = ' ' || c = '\t' || c = '\n' || c = '\x0d' || c = '\x0b' || c = '\x0c'

/-- Python `s.strip()`. -/
def pyStrip (s : List Char) : List Char :=
  ((s.dropWhile isPySpace).reverse.dropWhile isPySpace).reverse

/-- Python `s.strip('"\'')` (strip quote characters from both ends). -/
def pyStripQuotes (s : List Char) : List Char :=
  let isQ : Char → Bool := fun c => c = '"' || c = '\x27'
  ((s.dropWhile isQ).reverse.dropWhile isQ).reverse

/-- Python `s.lower()` (ASCII content in this code base). -/
def pyLower (s : List Char) : List Char := s.map Char.toLower

/-- Python `s.startswith(t)`. -/
def pyStartsWith : List Char → List Char → Bool
  | _, [] => true
  | [], _ :: _ => false
  | a :: s, b :: t => a = b && pyStartsWith s t

/-- Python `t in s` (substring containment; `"" in s` is `True`). -/
def pyContains (s t : List Char) : Bool :=
  pyStartsWith s t ||
    match s with
    | [] => false
    | _ :: s' => pyContains s' t

/-- Python `s.split(c)` for a single-character separator. -/
def pySplitOn (sep : Char) : List Char → List (List Char)
  | [] => [[]]
  | a :: rest =>
    let r := pySplitOn sep rest
    if a = sep then [] :: r
    else
      match r with
      | [] => [[a]]
      | h :: t => (a :: h) :: t

/-- Source `max(0, min(100, x))` — the clamp used by the extractors. -/
def clamp01 (x : ℤ) : ℤ := max 0 (min 100 x)

theorem clamp01_nonneg (x : ℤ) : 0 ≤ clamp01 x := le_max_left 0 _

theorem clamp01_le_100 (x : ℤ) : clamp01 x ≤ 100 :=
  max_le (by norm_num) (min_le_left 100 x)

theorem clamp01_mono {a b : ℤ} (h : a ≤ b) : clamp01 a ≤ clamp01 b :=
  max_le_max le_rfl (min_le_min le_rfl h)

theorem clamp01_of_bounds {x : ℤ} (h0 : 0 ≤ x) (h1 : x ≤ 100) : clamp01 x = x := by
  unfold clamp01
  rw [min_eq_right h1, max_eq_right h0]

/-! ## Parsed HTML document model

`HtmlDoc` abstracts what `BeautifulSoup` (an external library) hands the
extractors: tags in document order with their attributes and text, plus the
`re.findall(r'font-family: ([^;]+)')` match list over the extracted CSS
(`re` applied to raw CSS text is abstracted as its match results). -/

structure HeadingEl where
  level : Nat
  text : List Char
deriving DecidableEq

structure ImgEl where
  src : List Char
  srcset : List Char
  style : List Char
  classes : List Char
  alt : List Char
  /-- Holds `str(parent.get('class') or [])` when the img has a parent, else `none`. -/
  parentClassStr : Option (List Char)
deriving DecidableEq

structure ButtonEl where
  ariaLabel : List Char
  text : List Char
deriving DecidableEq

structure HtmlDoc where
  headings : List HeadingEl
  paragraphs : List (List Char)
  fontFamilyDecls : List (List Char)
  viewportMeta : Bool
  imgs : List ImgEl
  hasMain : Bool
  hasHeader : Bool
  hasFooter : Bool
  hasNav : Bool
  buttons : List ButtonEl
deriving DecidableEq

/-! ## Category metric records (`DesignMetrics.__init__`) -/

structure TypographyMetrics where
  baseFontSize : ℤ
  lineHeightRatioQ : ℚ
  contrastViolations : List (List Char)
  fontFallbacks : List (List (List Char))
  headingHierarchy : List (Nat × List Char)
  paragraphLengths : List Nat
  score : ℤ
deriving DecidableEq

structure ColorMetrics where
  primaryPalette : List (ℕ × ℕ × ℕ)
  harmonyViolations : List (ℕ × ℕ × ℕ)
  saturationViolations : List (ℕ × ℕ × ℕ)
  contrastViolations : List (ℕ × ℕ × ℕ)
  colorCount : ℕ
  score : ℤ
deriving DecidableEq

structure LayoutMetrics where
  whitespaceRatioQ : ℚ
  gridViolations : List (List Char)
  sectionPadding : List ℤ
  balanced : Bool
  score : ℤ
deriving DecidableEq

structure RespMetrics where
  viewportMeta : Bool
  breakpointViolations : List (List Char)
  touchTargetViolations : List (List Char)
  imageScalingIssues : List (List Char)
  score : ℤ
deriving DecidableEq

structure AccessMetrics where
  missingAltText : List (List Char)
  ariaViolations : List (List Char)
  semanticHtmlIssues : List (List Char)
  focusOrderIssues : List (List Char)
  score : ℤ
deriving DecidableEq

structure PerfMetrics where
  pageWeight : ℤ
  imageOptimization : List (List Char)
  metaTags : List (List Char)
  score : ℤ
deriving DecidableEq

/-- Constructor defaults of `DesignMetrics.__init__` per category. -/
def defaultTypographyM : TypographyMetrics :=
  { baseFontSize := 16, lineHeightRatioQ := 7/5, contrastViolations := [],
    fontFallbacks := [], headingHierarchy := [], paragraphLengths := [], score := 100 }

def defaultColorM : ColorMetrics :=
  { primaryPalette := [], harmonyViolations := [], saturationViolations := [],
    contrastViolations := [], colorCount := 0, score := 100 }

def defaultLayoutM : LayoutMetrics :=
  { whitespaceRatioQ := 3/10, gridViolations := [], sectionPadding := [],
    balanced := false, score := 100 }

def defaultRespM : RespMetrics :=
  { viewportMeta := false, breakpointViolations := [], touchTargetViolations := [],
    imageScalingIssues := [], score := 100 }

def defaultAccessM : AccessMetrics :=
  { missingAltText := [], ariaViolations := [], semanticHtmlIssues := [],
    focusOrderIssues := [], score := 100 }

def defaultPerfM : PerfMetrics :=
  { pageWeight := 0, imageOptimization := [], metaTags := [], score := 100 }

/-- Record `DesignMetrics`: one record per analysis. -/
structure DesignMetrics where
  typography : TypographyMetrics
  color : ColorMetrics
  layout : LayoutMetrics
  responsiveness : RespMetrics
  accessibility : AccessMetrics
  performance : PerfMetrics
deriving DecidableEq

/-- A fresh `DesignMetrics()`. -/
def DesignMetrics.init : DesignMetrics :=
  { typography := defaultTypographyM, color := defaultColorM, layout := defaultLayoutM,
    responsiveness := defaultRespM, accessibility := defaultAccessM,
    performance := defaultPerfM }

/-! ## `RuleBasedAnalyzer._analyze_typography` -/

/-- The heading collection loop: `for level in range(1, 7): soup.find_all(f'h{level}')`.
Headings are grouped **by level** (all h1s in document order, then all h2s, …),
kept only when their stripped text is non-empty, texts truncated to 50 chars. -/
def collectHeadings (doc : HtmlDoc) : List (Nat × List Char) :=
  (List.range 6).flatMap fun l =>
    (doc.headings.filter fun h => h.level = l + 1).filterMap fun h =>
      let t := pyStrip h.text
      if t.isEmpty then none else some (l + 1, t.take 50)

/-- Number of adjacent pairs with `levels[i+1] > levels[i] + 1`. -/
def hierarchyGaps : List Nat → ℕ
  | a :: b :: rest => (if a + 1 < b then 1 else 0) + hierarchyGaps (b :: rest)
  | _ => 0

/-- Source `_analyze_typography`; `none` models `self.soup` being unset (the early
`return metrics` with the function's initial dict, which equals the
constructor default). -/
def analyzeTypography (soup : Option HtmlDoc) : TypographyMetrics :=
  match soup with
  | none => defaultTypographyM
  | some doc =>
    let headings := collectHeadings doc
    let levels := headings.map Prod.fst
    let hviol := hierarchyGaps levels
    let plens := doc.paragraphs.filterMap fun p =>
      let t := pyStrip p
      if t.isEmpty then none else some t.length
    let longPars := (plens.filter fun n => 400 < n).length
    let fonts := doc.fontFamilyDecls.map fun m =>
      (pySplitOn ',' m).map fun f => pyStripQuotes (pyStrip f)
    let missingFallback := (fonts.filter fun fs => fs.length < 2).length
    { defaultTypographyM with
      headingHierarchy := headings,
      paragraphLengths := plens,
      fontFallbacks := fonts,
      score := clamp01 (100 - 10 * hviol - 5 * longPars - 15 * missingFallback) }

/-! ## `RuleBasedAnalyzer._analyze_colors` -/

/-- Saturation test of a palette color: `(max - min) / max > 0.85` (0 when `max = 0`). -/
def isSaturated (c : ℕ × ℕ × ℕ) : Bool :=
  let mx : ℕ := max c.1 (max c.2.1 c.2.2)
  let mn : ℕ := min c.1 (min c.2.1 c.2.2)
  decide (0 < mx) && decide ((17/20 : ℚ) < ((mx : ℚ) - (mn : ℚ)) / (mx : ℚ))

/-- Source `if len(palette) > 5: score -= (len(palette) - 5) * 10`. -/
def colorExcessPenalty (n : ℕ) : ℤ := if 5 < n then ((n : ℤ) - 5) * 10 else 0

/-- Source `_analyze_colors`; `none` models `Path(image_path).exists()` being false
(early return with the initial dict).  `some palette` is the ColorThief
result (`get_palette(color_count=6, quality=1)`), an external library. -/
def analyzeColors (palette : Option (List (ℕ × ℕ × ℕ))) : ColorMetrics :=
  match palette with
  | none => defaultColorM
  | some pal =>
    let satViol := pal.filter isSaturated
    { primaryPalette := pal,
      harmonyViolations := [],
      saturationViolations := satViol,
      contrastViolations := [],
      colorCount := pal.length,
      score := clamp01 (100 - colorExcessPenalty pal.length - 15 * satViol.length) }

/-! ## `RuleBasedAnalyzer._analyze_layout_whitespace` -/

/-- The function's own initial metrics dict (note `whitespace_ratio: 0`, unlike
the `DesignMetrics` constructor default of `0.3`). -/
def layoutBaseM : LayoutMetrics :=
  { whitespaceRatioQ := 0, gridViolations := [], sectionPadding := [],
    balanced := false, score := 100 }

/-- Source `if whitespace_ratio < 0.3: score -= 30 elif whitespace_ratio > 0.5: score -= 15`. -/
def layoutPenalty (r : ℚ) : ℤ :=
  if r < 3/10 then 30 else if 1/2 < r then 15 else 0

/-- Source `_analyze_layout_whitespace`; `none` models a missing screenshot file, and
`some pixels` is the grayscale pixel list from PIL (external).  An empty pixel
list raises `ZeroDivisionError`, caught by the function's own handler which
returns the initial dict. -/
def analyzeLayout (pixels : Option (List ℕ)) : LayoutMetrics :=
  match pixels with
  | none => layoutBaseM
  | some px =>
    if px.length = 0 then layoutBaseM
    else
      let r : ℚ := (((px.filter fun p => 240 < p).length : ℚ)) / (px.length : ℚ)
      { layoutBaseM with
        whitespaceRatioQ := r,
        score := clamp01 (100 - layoutPenalty r) }

/-! ## `RuleBasedAnalyzer._analyze_responsiveness` -/

/-- The img skip filter of `_analyze_responsiveness`:
`not src or src.startswith('data:') or any(kw in src.lower() for kw in
['icon','logo','sprite','.svg']) or src.startswith('//')`. -/
def skipImgResp (im : ImgEl) : Bool :=
  im.src.isEmpty ||
  pyStartsWith im.src ("data:").data ||
  [("icon").data, ("logo").data, ("sprite").data, (".svg").data].any
    (fun kw => pyContains (pyLower im.src) kw) ||
  pyStartsWith im.src ("//").data

/-- Source `has_responsive`: any of srcset nonempty, the three width substrings in
`style`, or the three responsive class-name substrings in `classes.lower()`. -/
def hasResponsive (im : ImgEl) : Bool :=
  !im.srcset.isEmpty ||
  pyContains im.style ("width:100%").data ||
  pyContains im.style ("max-width:100%").data ||
  pyContains im.style ("width: 100%").data ||
  pyContains (pyLower im.classes) ("responsive").data ||
  pyContains (pyLower im.classes) ("img-responsive").data ||
  pyContains (pyLower im.classes) ("img-fluid").data

/-- Source `src[:100] + '...' if len(src) > 100 else src`. -/
def truncSrc100 (s : List Char) : List Char :=
  if 100 < s.length then s.take 100 ++ ("...").data else s

/-- Source `if not viewport_meta: metrics["score"] -= 25`. -/
def viewportPenalty (viewportMeta : Bool) : ℤ := if viewportMeta then 0 else 25

/-- The critical-image penalty: only applied past 5 issues, capped at 15. -/
def respPenalty (critical : ℤ) : ℤ :=
  if 0 < critical then (if 5 < critical then min 15 critical else 0) else 0

/-- Source `_analyze_responsiveness`; `none` models `self.soup` unset. -/
def analyzeResponsiveness (soup : Option HtmlDoc) : RespMetrics :=
  match soup with
  | none => defaultRespM
  | some doc =>
    let issues := doc.imgs.filter fun im => !skipImgResp im && !hasResponsive im
    { viewportMeta := doc.viewportMeta,
      breakpointViolations := [],
      touchTargetViolations := [],
      imageScalingIssues := issues.map fun im => truncSrc100 im.src,
      score := max 0 (100 - viewportPenalty doc.viewportMeta - respPenalty issues.length) }

/-! ## `RuleBasedAnalyzer._analyze_accessibility` -/

/-- The (more generous) img skip filter of `_analyze_accessibility`, including
the parent decorative-class check. -/
def skipImgAccess (im : ImgEl) : Bool :=
  im.src.isEmpty ||
  pyStartsWith im.src ("data:").data ||
  [("icon").data, ("logo").data, ("sprite").data, (".svg").data,
   ("button").data, ("arrow").data, ("chevron").data].any
    (fun kw => pyContains (pyLower im.src) kw) ||
  pyStartsWith im.src ("//").data ||
  (match im.parentClassStr with
   | none => false
   | some pc =>
     [("icon").data, ("decoration").data, ("background").data].any
       (fun kw => pyContains (pyLower pc) kw))

/-- Source `src[:50] + '...' if len(src) > 50 else src`. -/
def truncSrc50 (s : List Char) : List Char :=
  if 50 < s.length then s.take 50 ++ ("...").data else s

/-- The missing-alt penalty: only applied past 3 misses, 2 each, capped at 15. -/
def altPenalty (missingAlt : ℤ) : ℤ :=
  if 3 < missingAlt then min (missingAlt * 2) 15 else 0

/-- Penalties for missing `main`/`header`/`footer`/`nav` semantic tags. -/
def semanticPenalty (hasMain hasHeader hasFooter hasNav : Bool) : ℤ :=
  (if hasMain then 0 else 10) + (if hasHeader then 0 else 5) +
  (if hasFooter then 0 else 5) + (if hasNav then 0 else 3)

/-- The unlabeled-button penalty: only past 2 violations, 3 each, capped at 10. -/
def ariaPenalty (ariaCount : ℤ) : ℤ :=
  if 2 < ariaCount then min (ariaCount * 3) 10 else 0

/-- Source `_analyze_accessibility`; `none` models `self.soup` unset. -/
def analyzeAccessibility (soup : Option HtmlDoc) : AccessMetrics :=
  match soup with
  | none => defaultAccessM
  | some doc =>
    let missing := doc.imgs.filter fun im => !skipImgAccess im && im.alt.isEmpty
    let semanticIssues : List (List Char) :=
      (if doc.hasMain then [] else [("Missing main tag").data]) ++
      (if doc.hasHeader then [] else [("Missing header tag").data]) ++
      (if doc.hasFooter then [] else [("Missing footer tag").data]) ++
      (if doc.hasNav then [] else [("Missing nav tag").data])
    let badButtons := doc.buttons.filter fun b =>
      b.ariaLabel.isEmpty && (pyStrip b.text).isEmpty
    { missingAltText := missing.map fun im => truncSrc50 im.src,
      ariaViolations := badButtons.map fun _ => ("Button without label").data,
      semanticHtmlIssues := semanticIssues,
      focusOrderIssues := [],
      score := max 0 (100 - altPenalty missing.length -
        semanticPenalty doc.hasMain doc.hasHeader doc.hasFooter doc.hasNav -
        ariaPenalty badButtons.length) }

/-! ## `RuleBasedAnalyzer.analyze` (the failure-count policy)

Each extractor call sits in its own `try/except`; a throwing call (library
errors inside BeautifulSoup/ColorThief/PIL) is modelled by an `Except`-valued
argument per extractor, `.ok` carrying the metrics that the call produced. -/

def isErr {ε α : Type} : Except ε α → Bool
  | .error _ => true
  | .ok _ => false

def exceptD {ε α : Type} (e : Except ε α) (d : α) : α :=
  match e with
  | .ok a => a
  | .error _ => d

def exceptOk {ε α : Type} : Except ε α → Bool
  | .ok _ => true
  | .error _ => false

/-- Source `RuleBasedAnalyzer.analyze`: HTML fetch first (raising wraps into a
critical failure), then the five guarded extractor calls, then the
`len(failed_analyses) >= 3` abort.  Failed categories keep the fresh
`DesignMetrics()` defaults. -/
def failedCount (typoR : Except String TypographyMetrics)
    (colorR : Except String ColorMetrics)
    (layoutR : Except String LayoutMetrics)
    (respR : Except String RespMetrics)
    (accessR : Except String AccessMetrics) : ℕ :=
  (if isErr typoR then 1 else 0) + (if isErr colorR then 1 else 0) +
  (if isErr layoutR then 1 else 0) + (if isErr respR then 1 else 0) +
  (if isErr accessR then 1 else 0)

def ruleAnalyze (url : String)
    (fetchResult : Except String HtmlDoc)
    (typoR : Except String TypographyMetrics)
    (colorR : Except String ColorMetrics)
    (layoutR : Except String LayoutMetrics)
    (respR : Except String RespMetrics)
    (accessR : Except String AccessMetrics) :
    Except String DesignMetrics :=
  match fetchResult with
  | .error e =>
    .error ((("Critical analysis failure for ") ++ url ++ (": ") ++ e))
  | .ok _ =>
    if 3 ≤ failedCount typoR colorR layoutR respR accessR then
      .error ((("Critical analysis failure for ") ++ url ++
        (": Critical analysis failure - multiple components failed")))
    else
      .ok { DesignMetrics.init with
        typography := exceptD typoR defaultTypographyM,
        color := exceptD colorR defaultColorM,
        layout := exceptD layoutR defaultLayoutM,
        responsiveness := exceptD respR defaultRespM,
        accessibility := exceptD accessR defaultAccessM }

/-! ## `PromptConfig` (prompts.py) -/

/-- Source `PromptConfig.get_token_limit`. -/
def getTokenLimit (analysisType : String) : ℕ :=
  if analysisType = "pdf_report" then 2500
  else if analysisType = "quick" then 800
  else if analysisType = "detailed" then 1800
  else 2500

/-- Source `PromptConfig.get_min_length` (`{"pdf_report": 1500, "quick": 400}` with
default 1500). -/
def getMinLength (analysisType : String) : ℕ :=
  if analysisType = "pdf_report" then 1500
  else if analysisType = "quick" then 400
  else 1500

/-! ## `OllamaClient.generate_vision_analysis` — response validation gate -/

/-- The fixed visual-grounding vocabulary `vision_indicators`. -/
def visionIndicators : List (List Char) :=
  [("see").data, ("visible").data, ("visual").data, ("screenshot").data,
   ("image").data, ("display").data, ("color").data, ("layout").data,
   ("text").data, ("button").data, ("navigation").data, ("design").data]

def hasVisionIndicator (content : List Char) : Bool :=
  visionIndicators.any fun ind => pyContains (pyLower content) ind

/-- The validation gate applied to a transport-successful response body
(`result.get("response", "").strip()` followed by the three checks).
Returns the stripped content on success. -/
def visionResponseGate (response : List Char) (analysisType : String) :
    Except String (List Char) :=
  if (pyStrip response).isEmpty then
    .error ("Vision model returned empty response - may not be processing the screenshot")
  else if (pyStrip response).length < getMinLength analysisType then
    .error ("Vision model returned insufficient analysis - may not be seeing the screenshot properly")
  else if !hasVisionIndicator (pyStrip response) then
    .error ("Vision analysis doesn't contain visual observations - LLM may not be processing the screenshot")
  else
    .ok (pyStrip response)

/-! ## `WeightsConfig` (weights_config.py)

YAML parsing is external; a load attempt is modelled as
`Except Unit YamlConfig`: `.error` for `FileNotFoundError` or any other
exception (both branches install the defaults), `.ok cfg` for a successful
`yaml.safe_load`, where each top-level key may be absent. -/

structure YamlConfig where
  weights : Option (List (String × ℚ))
  thresholds : Option (List (String × ℤ))
  version : Option String
deriving DecidableEq

/-- Source `WeightsConfig._get_default_config`. -/
def defaultConfig : YamlConfig :=
  { weights := some
      [(("typography"), 1/4), (("color"), 1/5), (("layout"), 1/4),
       (("responsiveness"), 3/20), (("accessibility"), 3/20)],
    thresholds := some
      [(("excellent"), 90), (("good"), 70), (("fair"), 50), (("poor"), 0)],
    version := some ("1.0") }

/-- Source `WeightsConfig._load_config`: defaults exactly when reading/parsing the
file raised; a successfully parsed file is installed as-is. -/
def loadConfig (fileResult : Except Unit YamlConfig) : YamlConfig :=
  match fileResult with
  | .error _ => defaultConfig
  | .ok c => c

/-- Source `WeightsConfig.get_weights` (`self._config.get("weights", ...)`). -/
def getWeights (c : YamlConfig) : List (String × ℚ) := c.weights.getD []

/-- Source `WeightsConfig.get_thresholds`. -/
def getThresholds (c : YamlConfig) : List (String × ℤ) := c.thresholds.getD []

/-- Python `dict.get(k, d)` over an association list. -/
def lookupD {β : Type} (l : List (String × β)) (k : String) (d : β) : β :=
  (List.lookup k l).getD d

/-- Source `WeightsConfig.get_score_category`. -/
def getScoreCategory (c : YamlConfig) (score : ℚ) : String :=
  let t := getThresholds c
  if ((lookupD t ("excellent") 90 : ℤ) : ℚ) ≤ score then ("excellent")
  else if ((lookupD t ("good") 70 : ℤ) : ℚ) ≤ score then ("good")
  else if ((lookupD t ("fair") 50 : ℤ) : ℚ) ≤ score then ("fair")
  else ("poor")

/-- Source `WeightsConfig.get_version`. -/
def getVersion (c : YamlConfig) : String := (c.version).getD ("unknown")

/-! ## Report synthesizer helpers (`AIAnalysisService._get_*`, `_count_total_issues`) -/

/-- Source `AIAnalysisService._get_score_grade`. -/
def getScoreGrade (score : ℚ) : String :=
  if 90 ≤ score then ("A")
  else if 80 ≤ score then ("B")
  else if 70 ≤ score then ("C")
  else if 60 ≤ score then ("D")
  else ("F")

/-- Source `AIAnalysisService._count_total_issues`: the six specific lists it sums. -/
def countTotalIssues (m : DesignMetrics) : ℕ :=
  m.typography.contrastViolations.length +
  m.color.harmonyViolations.length +
  m.layout.gridViolations.length +
  m.responsiveness.touchTargetViolations.length +
  m.accessibility.missingAltText.length +
  m.accessibility.ariaViolations.length

/-- Modelled from the spec: "`total_issues_found` (sum of violation-list
lengths across categories)" — the sum over *every* violation/issue list the
`DesignMetrics` record carries, used to compare against the code's
`_count_total_issues`. -/
def specTotalViolationLengths (m : DesignMetrics) : ℕ :=
  m.typography.contrastViolations.length +
  m.color.harmonyViolations.length +
  m.color.saturationViolations.length +
  m.color.contrastViolations.length +
  m.layout.gridViolations.length +
  m.responsiveness.breakpointViolations.length +
  m.responsiveness.touchTargetViolations.length +
  m.responsiveness.imageScalingIssues.length +
  m.accessibility.missingAltText.length +
  m.accessibility.ariaViolations.length +
  m.accessibility.semanticHtmlIssues.length +
  m.accessibility.focusOrderIssues.length

/-- Source `AIAnalysisService._get_critical_issues`. -/
def getCriticalIssues (m : DesignMetrics) : List String :=
  (if 5 < m.accessibility.missingAltText.length then
    [("Multiple images missing alt text")] else []) ++
  (if 0 < m.accessibility.ariaViolations.length then
    [("ARIA accessibility violations detected")] else []) ++
  (if 10 < m.responsiveness.imageScalingIssues.length then
    [("Significant mobile responsiveness problems")] else []) ++
  (if m.accessibility.score < 30 then [("Poor accessibility compliance")] else []) ++
  (if m.responsiveness.score < 30 then [("Poor mobile experience")] else [])

/-- Source `AIAnalysisService._get_strengths`. -/
def getStrengths (m : DesignMetrics) : List String :=
  let s :=
    (if 80 ≤ m.typography.score then [("Excellent typography and readability")] else []) ++
    (if 80 ≤ m.color.score then [("Good color scheme and harmony")] else []) ++
    (if 80 ≤ m.layout.score then [("Well-structured layout and spacing")] else []) ++
    (if 80 ≤ m.accessibility.score then [("Good accessibility compliance")] else []) ++
    (if 80 ≤ m.responsiveness.score then [("Mobile-friendly design")] else [])
  if s.isEmpty then [("Basic functionality is working")] else s

/-- Source `AIAnalysisService._get_improvement_areas`. -/
def getImprovementAreas (m : DesignMetrics) : List String :=
  (if m.typography.score < 70 then [("Typography and text readability")] else []) ++
  (if m.color.score < 70 then [("Color scheme and visual harmony")] else []) ++
  (if m.layout.score < 70 then [("Layout structure and spacing")] else []) ++
  (if m.accessibility.score < 70 then [("Accessibility compliance")] else []) ++
  (if m.responsiveness.score < 70 then [("Mobile responsiveness")] else [])

/-! ## Python `round(x, 1)` (banker's rounding to one decimal) -/

def roundHalfEven (q : ℚ) : ℤ :=
  let f : ℤ := ⌊q⌋
  let r : ℚ := q - f
  if r < 1/2 then f
  else if 1/2 < r then f + 1
  else if f % 2 = 0 then f else f + 1

def roundTo1 (q : ℚ) : ℚ := (roundHalfEven (q * 10) : ℚ) / 10

/-! ## `AIAnalysisService.analyze_website_design` -/

/-- One entry of the `screenshot_data` dict handed to the service.  The file
system and image-header sniffing are abstracted as flags. -/
structure ScreenshotInfo where
  localPath : String
  fileExists : Bool
  /-- first bytes are a PNG/JPEG header -/
  validHeader : Bool
  pageTitle : Option String
deriving DecidableEq

structure ScreenshotData where
  desktop : Option ScreenshotInfo
  mobile : Option ScreenshotInfo
deriving DecidableEq

structure ScoresBreakdown where
  typography : ℚ
  color : ℚ
  layout : ℚ
  responsiveness : ℚ
  accessibility : ℚ
deriving DecidableEq

structure ReportSummary where
  websiteTitle : String
  totalIssuesFound : ℕ
  criticalIssues : List String
  strengths : List String
  improvementAreas : List String
deriving DecidableEq

structure LlmAnalysis where
  content : List Char
  errorField : Option String
  visionAnalysis : Bool
deriving DecidableEq

structure AnalysisResult where
  status : String
  overallScore : ℚ
  scoreCategory : String
  scoreGrade : String
  scoresBreakdown : ScoresBreakdown
  reportSummary : ReportSummary
  ruleBasedMetrics : DesignMetrics
  llmAnalysis : LlmAnalysis
  weightsApplied : List (String × ℚ)
  rulesVersion : String
deriving DecidableEq

/-- Sequential `weights[...]` dict indexing over the five categories, in the
evaluation order of the weighted-sum expression; `none` models the `KeyError`
raised at the first missing key. -/
def lookupFiveWeights (w : List (String × ℚ)) : Option (ℚ × ℚ × ℚ × ℚ × ℚ) :=
  (List.lookup ("typography") w).bind fun wt =>
  (List.lookup ("color") w).bind fun wc =>
  (List.lookup ("layout") w).bind fun wl =>
  (List.lookup ("responsiveness") w).bind fun wr =>
  (List.lookup ("accessibility") w).bind fun wa =>
  some (wt, wc, wl, wr, wa)

/-- Step 3 of `analyze_website_design`: the mandatory vision stage.  Desktop
screenshot presence/readability, the Ollama health check and the
`generate_vision_analysis` call (whose validation gate is
`visionResponseGate`) are inputs; on a returned text the service re-checks
`len(llm_analysis.strip()) >= 1500` (`pdf_report` minimum). -/
def visionStage (sd : ScreenshotData) (ollamaHealthy : Bool)
    (generateResult : Except String (List Char)) : Except String (List Char) :=
  match sd.desktop with
  | none => .error ("Screenshot required for AI vision analysis but not available")
  | some d =>
    if !d.fileExists then
      .error ("Screenshot required for AI vision analysis but not available")
    else if !d.validHeader then
      .error ("Screenshot file is not readable or corrupted")
    else if !ollamaHealthy then
      .error ("AI vision analysis service is currently unavailable")
    else
      match generateResult with
      | .error e => .error e
      | .ok llm =>
        if llm.isEmpty || (pyStrip llm).length < getMinLength ("pdf_report") then
          .error ("Vision analysis returned insufficient content")
        else
          .ok llm

/-- The user-facing message the outer `except` substitutes for every error. -/
def genericFailureMsg : String :=
  ("We're experiencing technical issues with our analysis service. Please try again later.")

/-- Body of `analyze_website_design` (inside its `try`): screenshot-path
selection, rule analysis, weight application (dict indexing), the mandatory
vision stage, then result compilation. -/
def analyzeWebsiteDesignInner (sd : ScreenshotData) (cfg : YamlConfig)
    (ruleResult : Except String DesignMetrics) (ollamaHealthy : Bool)
    (generateResult : Except String (List Char)) : Except String AnalysisResult :=
  if sd.desktop.isNone && sd.mobile.isNone then
    .error ("No valid screenshot data provided")
  else
    match ruleResult with
    | .error e => .error e
    | .ok m =>
      match lookupFiveWeights (getWeights cfg) with
      | none => .error ("KeyError")
      | some (wt, wc, wl, wr, wa) =>
        let weightedScore : ℚ :=
          (m.typography.score : ℚ) * wt + (m.color.score : ℚ) * wc +
          (m.layout.score : ℚ) * wl + (m.responsiveness.score : ℚ) * wr +
          (m.accessibility.score : ℚ) * wa
        match visionStage sd ollamaHealthy generateResult with
        | .error e => .error (("Vision analysis is required but failed: ") ++ e)
        | .ok llm =>
          .ok {
            status := ("completed"),
            overallScore := roundTo1 weightedScore,
            scoreCategory := getScoreCategory cfg weightedScore,
            scoreGrade := getScoreGrade weightedScore,
            scoresBreakdown := {
              typography := roundTo1 (m.typography.score : ℚ),
              color := roundTo1 (m.color.score : ℚ),
              layout := roundTo1 (m.layout.score : ℚ),
              responsiveness := roundTo1 (m.responsiveness.score : ℚ),
              accessibility := roundTo1 (m.accessibility.score : ℚ) },
            reportSummary := {
              websiteTitle :=
                ((sd.desktop.bind fun d => d.pageTitle).getD ("Unknown")),
              totalIssuesFound := countTotalIssues m,
              criticalIssues := getCriticalIssues m,
              strengths := getStrengths m,
              improvementAreas := getImprovementAreas m },
            ruleBasedMetrics := m,
            llmAnalysis := { content := llm, errorField := none, visionAnalysis := true },
            weightsApplied := getWeights cfg,
            rulesVersion := getVersion cfg }

/-- Source `analyze_website_design`: the outer `except` replaces any raised error
with the generic technical-issues message. -/
def analyzeWebsiteDesign (sd : ScreenshotData) (cfg : YamlConfig)
    (ruleResult : Except String DesignMetrics) (ollamaHealthy : Bool)
    (generateResult : Except String (List Char)) : Except String AnalysisResult :=
  match analyzeWebsiteDesignInner sd cfg ruleResult ollamaHealthy generateResult with
  | .error _ => .error genericFailureMsg
  | .ok r => .ok r

/-! ## `master_analyze` (api/master_analysis.py)

Only the outcome-shaping logic is modelled: whether the screenshot step
produced a usable result (`good_screenshots`), and the guarded AI-analysis
call whose exception is recorded in `errors["ai_analysis"]`.  The final
status is `"completed" if good_screenshots else "failed"`. -/

structure MasterResult where
  status : String
  aiInsights : Option AnalysisResult
  overallScore : Option ℚ
  scoresBreakdown : Option ScoresBreakdown
  errors : List (String × String)
deriving DecidableEq

def masterAnalyze (screenshotsOk : Bool) (captureErr : String)
    (aiResult : Except String AnalysisResult) : MasterResult :=
  if screenshotsOk then
    match aiResult with
    | .ok r =>
      { status := ("completed"), aiInsights := some r,
        overallScore := some r.overallScore,
        scoresBreakdown := some r.scoresBreakdown, errors := [] }
    | .error e =>
      { status := ("completed"), aiInsights := none, overallScore := none,
        scoresBreakdown := none, errors := [(("ai_analysis"), e)] }
  else
    { status := ("failed"), aiInsights := none, overallScore := none,
      scoresBreakdown := none, errors := [(("screenshot_capture"), captureErr)] }

/-! ## Concrete fixtures -/

/-- A desktop screenshot entry that exists and has a valid image header. -/
def sdGoodDesktop : ScreenshotInfo :=
  { localPath := ("shot.png"), fileExists := true, validHeader := true,
    pageTitle := none }

def sdGood : ScreenshotData := { desktop := some sdGoodDesktop, mobile := none }

/-- A 1500-character vision response (the `pdf_report` minimum length). -/
def goodContent : List Char := List.replicate 1500 'a'

/-- Metrics with all five category scores at 100 (a fresh `DesignMetrics()`). -/
def m100 : DesignMetrics := DesignMetrics.init

/-- Metrics with all five category scores at 0. -/
def m0 : DesignMetrics :=
  { typography := { defaultTypographyM with score := 0 },
    color := { defaultColorM with score := 0 },
    layout := { defaultLayoutM with score := 0 },
    responsiveness := { defaultRespM with score := 0 },
    accessibility := { defaultAccessM with score := 0 },
    performance := defaultPerfM }

def dummyBreakdown : ScoresBreakdown :=
  { typography := 0, color := 0, layout := 0, responsiveness := 0, accessibility := 0 }

def dummySummary : ReportSummary :=
  { websiteTitle := (""), totalIssuesFound := 0, criticalIssues := [],
    strengths := [], improvementAreas := [] }

def dummyResult : AnalysisResult :=
  { status := (""), overallScore := 0, scoreCategory := (""), scoreGrade := (""),
    scoresBreakdown := dummyBreakdown,
    reportSummary := dummySummary,
    ruleBasedMetrics := DesignMetrics.init,
    llmAnalysis := { content := [], errorField := none, visionAnalysis := false },
    weightsApplied := [], rulesVersion := ("") }

/-- Projection of a successful analysis to its overall score. -/
def overallOf : Except String AnalysisResult → Option ℚ
  | .ok r => some r.overallScore
  | .error _ => none

/-- The compiled result for arbitrary metrics under the good fixture
environment (defaults when the analysis fails, which it does not here). -/
def compiledFor (m : DesignMetrics) : AnalysisResult :=
  exceptD (analyzeWebsiteDesign sdGood defaultConfig (.ok m) true (.ok goodContent))
    dummyResult

/-- An `HtmlDoc` with nothing in it. -/
def emptyDoc : HtmlDoc :=
  { headings := [], paragraphs := [], fontFamilyDecls := [], viewportMeta := false,
    imgs := [], hasMain := false, hasHeader := false, hasFooter := false,
    hasNav := false, buttons := [] }

/-! ## Claim theorems -/

set_option maxRecDepth 100000

theorem viewportPenalty_nonneg (b : Bool) : 0 ≤ viewportPenalty b := by
  unfold viewportPenalty
  split <;> norm_num

theorem respPenalty_nonneg (c : ℤ) : 0 ≤ respPenalty c := by
  unfold respPenalty
  split_ifs with h1 h2
  · exact le_min (by norm_num) (by linarith)
  · exact le_rfl
  · exact le_rfl

theorem altPenalty_nonneg (c : ℤ) : 0 ≤ altPenalty c := by
  unfold altPenalty
  split_ifs with h1
  · exact le_min (by linarith) (by norm_num)
  · exact le_rfl

theorem semanticPenalty_nonneg (a b c d : Bool) : 0 ≤ semanticPenalty a b c d := by
  unfold semanticPenalty
  split_ifs <;> norm_num

theorem ariaPenalty_nonneg (c : ℤ) : 0 ≤ ariaPenalty c := by
  unfold ariaPenalty
  split_ifs with h1
  · exact le_min (by linarith) (by norm_num)
  · exact le_rfl

theorem max0_sub2_le_100 {a b : ℤ} (ha : 0 ≤ a) (hb : 0 ≤ b) :
    max 0 (100 - a - b) ≤ 100 :=
  max_le (by norm_num) (by linarith)

theorem max0_sub3_le_100 {a b c : ℤ} (ha : 0 ≤ a) (hb : 0 ≤ b) (hc : 0 ≤ c) :
    max 0 (100 - a - b - c) ≤ 100 :=
  max_le (by norm_num) (by linarith)

/-- C2: every category extractor returns a score in `[0, 100]` for every
input, including a missing document (`none`) and a missing screenshot file
(`none`); no deduction sequence can leave the returned score outside the
range. -/
theorem extractor_scores_in_range :
    (∀ soup, 0 ≤ (analyzeTypography soup).score ∧ (analyzeTypography soup).score ≤ 100) ∧
    (∀ pal, 0 ≤ (analyzeColors pal).score ∧ (analyzeColors pal).score ≤ 100) ∧
    (∀ px, 0 ≤ (analyzeLayout px).score ∧ (analyzeLayout px).score ≤ 100) ∧
    (∀ soup, 0 ≤ (analyzeResponsiveness soup).score ∧
      (analyzeResponsiveness soup).score ≤ 100) ∧
    (∀ soup, 0 ≤ (analyzeAccessibility soup).score ∧
      (analyzeAccessibility soup).score ≤ 100) := by
  refine ⟨?_, ?_, ?_, ?_, ?_⟩
  · intro soup
    cases soup with
    | none => exact ⟨by norm_num [analyzeTypography, defaultTypographyM],
        by norm_num [analyzeTypography, defaultTypographyM]⟩
    | some doc => exact ⟨clamp01_nonneg _, clamp01_le_100 _⟩
  · intro pal
    cases pal with
    | none => exact ⟨by norm_num [analyzeColors, defaultColorM],
        by norm_num [analyzeColors, defaultColorM]⟩
    | some p => exact ⟨clamp01_nonneg _, clamp01_le_100 _⟩
  · intro px
    cases px with
    | none => exact ⟨by norm_num [analyzeLayout, layoutBaseM],
        by norm_num [analyzeLayout, layoutBaseM]⟩
    | some p =>
      by_cases h : p.length = 0
      · simp only [analyzeLayout, h, if_pos]
        exact ⟨by norm_num [layoutBaseM], by norm_num [layoutBaseM]⟩
      · simp only [analyzeLayout, h, if_neg]
        exact ⟨clamp01_nonneg _, clamp01_le_100 _⟩
  · intro soup
    cases soup with
    | none => exact ⟨by norm_num [analyzeResponsiveness, defaultRespM],
        by norm_num [analyzeResponsiveness, defaultRespM]⟩
    | some doc =>
      exact ⟨le_max_left 0 _,
        max0_sub2_le_100 (viewportPenalty_nonneg _)
          (respPenalty_nonneg _)⟩
  · intro soup
    cases soup with
    | none => exact ⟨by norm_num [analyzeAccessibility, defaultAccessM],
        by norm_num [analyzeAccessibility, defaultAccessM]⟩
    | some doc =>
      exact ⟨le_max_left 0 _,
        max0_sub3_le_100 (altPenalty_nonneg _)
          (semanticPenalty_nonneg _ _ _ _)
          (ariaPenalty_nonneg _)⟩

/-- C3: under the default weight configuration (typography 0.25, color 0.20,
layout 0.25, responsiveness 0.15, accessibility 0.15), a successful analysis
reports `overall_score = round(Σ score·weight, 1)` for every metrics record;
all-100 category scores yield exactly 100 and all-0 scores yield 0. -/
theorem overall_score_weighted_sum :
    (∀ m : DesignMetrics,
      overallOf (analyzeWebsiteDesign sdGood defaultConfig (.ok m) true (.ok goodContent)) =
        some (roundTo1 ((m.typography.score : ℚ) * (1/4) + (m.color.score : ℚ) * (1/5) +
          (m.layout.score : ℚ) * (1/4) + (m.responsiveness.score : ℚ) * (3/20) +
          (m.accessibility.score : ℚ) * (3/20)))) ∧
    overallOf (analyzeWebsiteDesign sdGood defaultConfig (.ok m100) true (.ok goodContent)) =
      some 100 ∧
    overallOf (analyzeWebsiteDesign sdGood defaultConfig (.ok m0) true (.ok goodContent)) =
      some 0 := by
  have hgen : ∀ m : DesignMetrics,
      overallOf (analyzeWebsiteDesign sdGood defaultConfig (.ok m) true (.ok goodContent)) =
        some (roundTo1 ((m.typography.score : ℚ) * (1/4) + (m.color.score : ℚ) * (1/5) +
          (m.layout.score : ℚ) * (1/4) + (m.responsiveness.score : ℚ) * (3/20) +
          (m.accessibility.score : ℚ) * (3/20))) := fun _ => rfl
  refine ⟨hgen, ?_, ?_⟩
  · rw [hgen m100, Option.some_inj]
    show roundTo1 (((100 : ℤ) : ℚ) * (1/4) + ((100 : ℤ) : ℚ) * (1/5) +
      ((100 : ℤ) : ℚ) * (1/4) + ((100 : ℤ) : ℚ) * (3/20) +
      ((100 : ℤ) : ℚ) * (3/20)) = 100
    have h : (((100 : ℤ) : ℚ) * (1/4) + ((100 : ℤ) : ℚ) * (1/5) +
        ((100 : ℤ) : ℚ) * (1/4) + ((100 : ℤ) : ℚ) * (3/20) +
        ((100 : ℤ) : ℚ) * (3/20)) = 100 := by norm_num
    rw [h]
    unfold roundTo1 roundHalfEven
    norm_num
  · rw [hgen m0, Option.some_inj]
    show roundTo1 (((0 : ℤ) : ℚ) * (1/4) + ((0 : ℤ) : ℚ) * (1/5) +
      ((0 : ℤ) : ℚ) * (1/4) + ((0 : ℤ) : ℚ) * (3/20) +
      ((0 : ℤ) : ℚ) * (3/20)) = 0
    have h : (((0 : ℤ) : ℚ) * (1/4) + ((0 : ℤ) : ℚ) * (1/5) +
        ((0 : ℤ) : ℚ) * (1/4) + ((0 : ℤ) : ℚ) * (3/20) +
        ((0 : ℤ) : ℚ) * (3/20)) = 0 := by norm_num
    rw [h]
    unfold roundTo1 roundHalfEven
    norm_num

/-- Screenshot with 29 light pixels out of 100 (whitespace ratio 0.29). -/
def px29 : List ℕ := List.replicate 29 255 ++ List.replicate 71 0

/-- Screenshot with 51 light pixels out of 100 (whitespace ratio 0.51). -/
def px51 : List ℕ := List.replicate 51 255 ++ List.replicate 49 0

/-- C7: for a non-empty screenshot the layout score is the clamped base 100
minus `layoutPenalty` of the whitespace ratio; the penalty is 0 at exactly
0.3, 30 ("too dense") strictly below 0.3, 15 ("too sparse") strictly above
0.5, the dense penalty strictly exceeding the sparse one; concretely 0.29
scores 70 and 0.51 scores 85. -/
theorem layout_whitespace_boundary :
    (∀ px : List ℕ, px ≠ [] →
      (analyzeLayout (some px)).whitespaceRatioQ =
        ((px.filter fun p => 240 < p).length : ℚ) / (px.length : ℚ) ∧
      (analyzeLayout (some px)).score =
        clamp01 (100 - layoutPenalty ((analyzeLayout (some px)).whitespaceRatioQ))) ∧
    (∀ r : ℚ, (r = 3/10 → layoutPenalty r = 0) ∧ (r < 3/10 → layoutPenalty r = 30) ∧
      (1/2 < r → layoutPenalty r = 15)) ∧
    (∀ r r' : ℚ, r < 3/10 → 1/2 < r' → layoutPenalty r' < layoutPenalty r) ∧
    (analyzeLayout (some px29)).whitespaceRatioQ = 29/100 ∧
    (analyzeLayout (some px29)).score = 70 ∧
    (analyzeLayout (some px51)).whitespaceRatioQ = 51/100 ∧
    (analyzeLayout (some px51)).score = 85 := by
  have hpen : ∀ r : ℚ, (r = 3/10 → layoutPenalty r = 0) ∧ (r < 3/10 → layoutPenalty r = 30) ∧
      (1/2 < r → layoutPenalty r = 15) := by
    intro r
    refine ⟨?_, ?_, ?_⟩
    · intro h
      subst h
      norm_num [layoutPenalty]
    · intro h
      unfold layoutPenalty
      rw [if_pos h]
    · intro h
      have h2 : ¬ r < 3/10 := by linarith
      unfold layoutPenalty
      rw [if_neg h2, if_pos h]
  have h29f : (px29.filter fun p => 240 < p).length = 29 := by decide
  have h29l : px29.length = 100 := by decide
  have h51f : (px51.filter fun p => 240 < p).length = 51 := by decide
  have h51l : px51.length = 100 := by decide
  refine ⟨?_, hpen, ?_, ?_, ?_, ?_, ?_⟩
  · intro px h
    have hlen : ¬ px.length = 0 := fun hh => h (List.length_eq_zero.mp hh)
    simp only [analyzeLayout]
    rw [if_neg hlen]
    exact ⟨rfl, rfl⟩
  · intro r r' h h'
    rw [(hpen r).2.1 h, (hpen r').2.2 h']
    norm_num
  · show ((px29.filter fun p => 240 < p).length : ℚ) / (px29.length : ℚ) = 29/100
    rw [h29f, h29l]
    norm_num
  · show clamp01 (100 - layoutPenalty
      (((px29.filter fun p => 240 < p).length : ℚ) / (px29.length : ℚ))) = 70
    rw [h29f, h29l]
    have hp : layoutPenalty (((29 : ℕ) : ℚ) / ((100 : ℕ) : ℚ)) = 30 := by
      unfold layoutPenalty
      rw [if_pos (by norm_num)]
    rw [hp]
    decide
  · show ((px51.filter fun p => 240 < p).length : ℚ) / (px51.length : ℚ) = 51/100
    rw [h51f, h51l]
    norm_num
  · show clamp01 (100 - layoutPenalty
      (((px51.filter fun p => 240 < p).length : ℚ) / (px51.length : ℚ))) = 85
    rw [h51f, h51l]
    have hp : layoutPenalty (((51 : ℕ) : ℚ) / ((100 : ℕ) : ℚ)) = 15 := by
      unfold layoutPenalty
      rw [if_neg (by norm_num), if_pos (by norm_num)]
    rw [hp]
    decide

/-- Witness for C7 at the concrete 0.29-ratio screenshot. -/
theorem layout_whitespace_boundary_witness :
    px29 ≠ [] ∧
    (analyzeLayout (some px29)).score =
      clamp01 (100 - layoutPenalty ((analyzeLayout (some px29)).whitespaceRatioQ)) :=
  ⟨by decide, (layout_whitespace_boundary.1 px29 (by decide)).2⟩

/-- Headings in document order h1, h4, h2, h3: document order jumps from
level 1 straight to level 4. -/
def docSkip : HtmlDoc :=
  { emptyDoc with headings :=
      [⟨1, ("A").data⟩, ⟨4, ("B").data⟩, ⟨2, ("C").data⟩, ⟨3, ("D").data⟩] }

/-- Headings h1, h3 (skipping h2). -/
def doc13 : HtmlDoc :=
  { emptyDoc with headings := [⟨1, ("A").data⟩, ⟨3, ("B").data⟩] }

/-- Headings h1, h2, h3. -/
def doc123 : HtmlDoc :=
  { emptyDoc with headings := [⟨1, ("A").data⟩, ⟨2, ("C").data⟩, ⟨3, ("B").data⟩] }

/-- C9 counterexample: in the document h1, h4, h2, h3 the document-order
level sequence [1,4,2,3] does contain a jump of more than one step (1→4),
yet the extractor deducts nothing (score stays 100): it scans the headings
re-grouped by level ([1,2,3,4]), not in document order. -/
theorem typography_document_order_cex :
    hierarchyGaps (docSkip.headings.map HeadingEl.level) = 1 ∧
    (analyzeTypography (some docSkip)).score = 100 ∧
    (analyzeTypography (some docSkip)).headingHierarchy.map Prod.fst = [1, 2, 3, 4] := by
  refine ⟨by decide, by decide, by decide⟩

/-- C9 (amended): the hierarchy deduction is 10 per adjacent gap in the
**level-grouped** heading sequence (the per-level `find_all` collection
order), not the document order; a [h1,h3] document scores 90, exactly 10
below an otherwise-identical [h1,h2,h3] document's 100. -/
theorem typography_hierarchy_penalty :
    (∀ doc : HtmlDoc, doc.paragraphs = [] → doc.fontFamilyDecls = [] →
      (analyzeTypography (some doc)).score =
        clamp01 (100 - 10 * (hierarchyGaps ((collectHeadings doc).map Prod.fst) : ℤ))) ∧
    (analyzeTypography (some doc13)).score = 90 ∧
    (analyzeTypography (some doc123)).score = 100 ∧
    (analyzeTypography (some doc13)).score + 10 = (analyzeTypography (some doc123)).score := by
  refine ⟨?_, by decide, by decide, by decide⟩
  intro doc h1 h2
  simp only [analyzeTypography, h1, h2, List.filterMap_nil, List.map_nil,
    List.filter_nil, List.length_nil]
  norm_num

/-- Witness for C9's amended theorem at the [h1,h3] document. -/
theorem typography_hierarchy_penalty_witness :
    doc13.paragraphs = [] ∧ doc13.fontFamilyDecls = [] ∧
    (analyzeTypography (some doc13)).score =
      clamp01 (100 - 10 * (hierarchyGaps ((collectHeadings doc13).map Prod.fst) : ℤ)) :=
  ⟨rfl, rfl, typography_hierarchy_penalty.1 doc13 rfl rfl⟩

/-- C8: the color score is the clamped base 100 minus the linear
excess-palette penalty (10 per color beyond 5) and a flat 15 per
over-saturated color; a 7-swatch palette extending a 4-swatch palette always
scores strictly lower than the 4-swatch palette alone. -/
theorem color_palette_penalties :
    (∀ pal : List (ℕ × ℕ × ℕ),
      (analyzeColors (some pal)).score =
        clamp01 (100 - colorExcessPenalty pal.length -
          15 * ((pal.filter isSaturated).length : ℤ)) ∧
      (analyzeColors (some pal)).saturationViolations = pal.filter isSaturated) ∧
    (∀ n : ℕ, 5 < n → colorExcessPenalty n = ((n : ℤ) - 5) * 10) ∧
    (∀ p4 extra : List (ℕ × ℕ × ℕ), p4.length = 4 → extra.length = 3 →
      (analyzeColors (some (p4 ++ extra))).score < (analyzeColors (some p4)).score) := by
  have hscore : ∀ pal : List (ℕ × ℕ × ℕ), (analyzeColors (some pal)).score =
      clamp01 (100 - colorExcessPenalty pal.length -
        15 * ((pal.filter isSaturated).length : ℤ)) := fun _ => rfl
  refine ⟨fun pal => ⟨hscore pal, rfl⟩, ?_, ?_⟩
  · intro n h
    unfold colorExcessPenalty
    rw [if_pos h]
  · intro p4 extra h4 h3
    have hlen7 : (p4 ++ extra).length = 7 := by rw [List.length_append, h4, h3]
    have hfil : ((p4 ++ extra).filter isSaturated).length =
        (p4.filter isSaturated).length + (extra.filter isSaturated).length := by
      rw [List.filter_append, List.length_append]
    have hs4le : (p4.filter isSaturated).length ≤ 4 := h4 ▸ List.length_filter_le _ _
    have hs4le' : ((p4.filter isSaturated).length : ℤ) ≤ 4 := by exact_mod_cast hs4le
    have hs4nn : (0 : ℤ) ≤ ((p4.filter isSaturated).length : ℤ) := Int.natCast_nonneg _
    have hsEnn : (0 : ℤ) ≤ ((extra.filter isSaturated).length : ℤ) := Int.natCast_nonneg _
    have he7 : colorExcessPenalty (p4 ++ extra).length = 20 := by rw [hlen7]; decide
    have he4 : colorExcessPenalty p4.length = 0 := by rw [h4]; decide
    rw [hscore, hscore, he7, he4, hfil]
    push_cast
    have hmid : clamp01 ((100 : ℤ) - 20 - 15 * (((p4.filter isSaturated).length : ℤ) +
        ((extra.filter isSaturated).length : ℤ))) ≤
        clamp01 (80 - 15 * ((p4.filter isSaturated).length : ℤ)) :=
      clamp01_mono (by linarith)
    have hmid2 : clamp01 ((80 : ℤ) - 15 * ((p4.filter isSaturated).length : ℤ)) =
        80 - 15 * ((p4.filter isSaturated).length : ℤ) :=
      clamp01_of_bounds (by linarith) (by linarith)
    have hright : clamp01 ((100 : ℤ) - 0 - 15 * ((p4.filter isSaturated).length : ℤ)) =
        100 - 15 * ((p4.filter isSaturated).length : ℤ) :=
      clamp01_of_bounds (by linarith) (by linarith)
    calc clamp01 ((100 : ℤ) - 20 - 15 * (((p4.filter isSaturated).length : ℤ) +
          ((extra.filter isSaturated).length : ℤ)))
        ≤ 80 - 15 * ((p4.filter isSaturated).length : ℤ) := hmid2 ▸ hmid
      _ < 100 - 15 * ((p4.filter isSaturated).length : ℤ) := by linarith
      _ = clamp01 ((100 : ℤ) - 0 - 15 * ((p4.filter isSaturated).length : ℤ)) := hright.symm

/-- Witness for C8 at a concrete 4-swatch palette extended by 3 swatches. -/
theorem color_palette_penalties_witness :
    (List.replicate 4 ((0, 0, 0) : ℕ × ℕ × ℕ)).length = 4 ∧
    (List.replicate 3 ((0, 0, 0) : ℕ × ℕ × ℕ)).length = 3 ∧
    (analyzeColors (some (List.replicate 4 ((0, 0, 0) : ℕ × ℕ × ℕ) ++
        List.replicate 3 ((0, 0, 0) : ℕ × ℕ × ℕ)))).score <
      (analyzeColors (some (List.replicate 4 ((0, 0, 0) : ℕ × ℕ × ℕ)))).score :=
  ⟨rfl, rfl, color_palette_penalties.2.2 _ _ rfl rfl⟩

/-- C5: with the HTML fetch succeeding, 3 or more extractor failures abort
the whole rule-based analysis; fewer than 3 leave it successful, with every
failed category keeping the fresh `DesignMetrics()` default, whose score is
100. -/
theorem rule_failure_policy :
    ∀ (url : String) (doc : HtmlDoc)
      (tR : Except String TypographyMetrics) (cR : Except String ColorMetrics)
      (lR : Except String LayoutMetrics) (rR : Except String RespMetrics)
      (aR : Except String AccessMetrics),
      (3 ≤ failedCount tR cR lR rR aR →
        isErr (ruleAnalyze url (.ok doc) tR cR lR rR aR) = true) ∧
      (failedCount tR cR lR rR aR < 3 →
        exceptOk (ruleAnalyze url (.ok doc) tR cR lR rR aR) = true ∧
        ∀ m, ruleAnalyze url (.ok doc) tR cR lR rR aR = .ok m →
          (isErr tR = true → m.typography = defaultTypographyM ∧ m.typography.score = 100) ∧
          (isErr cR = true → m.color = defaultColorM ∧ m.color.score = 100) ∧
          (isErr lR = true → m.layout = defaultLayoutM ∧ m.layout.score = 100) ∧
          (isErr rR = true → m.responsiveness = defaultRespM ∧ m.responsiveness.score = 100) ∧
          (isErr aR = true → m.accessibility = defaultAccessM ∧ m.accessibility.score = 100)) := by
  intro url doc tR cR lR rR aR
  constructor
  · intro h
    simp only [ruleAnalyze]
    rw [if_pos h]
    rfl
  · intro h
    have hneg : ¬ 3 ≤ failedCount tR cR lR rR aR := by omega
    constructor
    · simp only [ruleAnalyze]
      rw [if_neg hneg]
      rfl
    · intro m hm
      simp only [ruleAnalyze] at hm
      rw [if_neg hneg] at hm
      injection hm with hm2
      subst hm2
      refine ⟨?_, ?_, ?_, ?_, ?_⟩ <;> intro hErr
      · cases tR with
        | ok a => simp [isErr] at hErr
        | error e => exact ⟨rfl, rfl⟩
      · cases cR with
        | ok a => simp [isErr] at hErr
        | error e => exact ⟨rfl, rfl⟩
      · cases lR with
        | ok a => simp [isErr] at hErr
        | error e => exact ⟨rfl, rfl⟩
      · cases rR with
        | ok a => simp [isErr] at hErr
        | error e => exact ⟨rfl, rfl⟩
      · cases aR with
        | ok a => simp [isErr] at hErr
        | error e => exact ⟨rfl, rfl⟩

def tErrFix : Except String TypographyMetrics := .error ("Typography: boom")

def cErrFix : Except String ColorMetrics := .error ("Color: boom")

/-- The metrics produced when typography and color extraction both threw. -/
def ruleRes2 : DesignMetrics :=
  exceptD (ruleAnalyze ("https://example.com") (.ok emptyDoc) tErrFix cErrFix
    (.ok defaultLayoutM) (.ok defaultRespM) (.ok defaultAccessM)) DesignMetrics.init

/-- Witness for C5: two failures are tolerated (defaulted scores of 100),
three failures abort. -/
theorem rule_failure_policy_witness :
    failedCount tErrFix cErrFix (.ok defaultLayoutM) (.ok defaultRespM) (.ok defaultAccessM) < 3 ∧
    exceptOk (ruleAnalyze ("https://example.com") (.ok emptyDoc) tErrFix cErrFix
      (.ok defaultLayoutM) (.ok defaultRespM) (.ok defaultAccessM)) = true ∧
    ruleRes2.typography.score = 100 ∧ ruleRes2.color.score = 100 ∧
    isErr (ruleAnalyze ("https://example.com") (.ok emptyDoc) tErrFix cErrFix
      (.error ("Layout: boom")) (.ok defaultRespM) (.ok defaultAccessM)) = true := by
  have h := rule_failure_policy ("https://example.com") emptyDoc tErrFix cErrFix
    (.ok defaultLayoutM) (.ok defaultRespM) (.ok defaultAccessM)
  refine ⟨by decide, (h.2 (by decide)).1, ?_, ?_, ?_⟩
  · exact (((h.2 (by decide)).2 ruleRes2 rfl).1 rfl).2
  · exact (((h.2 (by decide)).2 ruleRes2 rfl).2.1 rfl).2
  · exact (rule_failure_policy ("https://example.com") emptyDoc tErrFix cErrFix
      (.error ("Layout: boom")) (.ok defaultRespM) (.ok defaultAccessM)).1 (by decide)

/-- C1 counterexample: with both screenshots captured and the rule metrics
all succeeding, an unavailable vision service makes `analyze_website_design`
raise — but the master endpoint's final status is `"completed"`, not
`"failed"` as the claim states. -/
theorem vision_required_status_cex :
    analyzeWebsiteDesign sdGood defaultConfig (.ok DesignMetrics.init) false (.ok goodContent) =
      .error genericFailureMsg ∧
    (masterAnalyze true ("") (analyzeWebsiteDesign sdGood defaultConfig
      (.ok DesignMetrics.init) false (.ok goodContent))).status = ("completed") ∧
    ¬ (masterAnalyze true ("") (analyzeWebsiteDesign sdGood defaultConfig
      (.ok DesignMetrics.init) false (.ok goodContent))).status = ("failed") := by
  exact ⟨rfl, rfl, by decide⟩

/-- C1 (amended): a vision failure still fails the whole
`analyze_website_design` call, so no partial rule-score-only result exists
(`ai_insights`, `overall_score`, `scores_breakdown` all absent and the error
recorded under `ai_analysis`); but the master result's status is
`"completed"` whenever a screenshot succeeded — `"failed"` appears only when
the screenshot stage itself failed. -/
theorem vision_required_no_partial_result :
    (∀ m : DesignMetrics,
      analyzeWebsiteDesign sdGood defaultConfig (.ok m) false (.ok goodContent) =
        .error genericFailureMsg) ∧
    (∀ e capErr : String, masterAnalyze true capErr (.error e) =
      { status := ("completed"), aiInsights := none, overallScore := none,
        scoresBreakdown := none, errors := [(("ai_analysis"), e)] }) ∧
    (∀ (capErr : String) (r : Except String AnalysisResult),
      (masterAnalyze false capErr r).status = ("failed")) :=
  ⟨fun _ => rfl, fun _ _ => rfl, fun _ _ => rfl⟩

theorem lookupFive_eq_none {w : List (String × ℚ)}
    (h : List.lookup ("typography") w = none ∨ List.lookup ("color") w = none ∨
      List.lookup ("layout") w = none ∨ List.lookup ("responsiveness") w = none ∨
      List.lookup ("accessibility") w = none) :
    lookupFiveWeights w = none := by
  rcases h with h | h | h | h | h
  · simp [lookupFiveWeights, h]
  · cases h1 : List.lookup ("typography") w <;>
      simp [lookupFiveWeights, h1, h]
  · cases h1 : List.lookup ("typography") w <;>
      cases h2 : List.lookup ("color") w <;>
      simp [lookupFiveWeights, h1, h2, h]
  · cases h1 : List.lookup ("typography") w <;>
      cases h2 : List.lookup ("color") w <;>
      cases h3 : List.lookup ("layout") w <;>
      simp [lookupFiveWeights, h1, h2, h3, h]
  · cases h1 : List.lookup ("typography") w <;>
      cases h2 : List.lookup ("color") w <;>
      cases h3 : List.lookup ("layout") w <;>
      cases h4 : List.lookup ("responsiveness") w <;>
      simp [lookupFiveWeights, h1, h2, h3, h4, h]

/-- A config file that parsed successfully but carries no weights mapping. -/
def cfgNoWeights : YamlConfig :=
  { weights := none, thresholds := none, version := none }

/-- C10: score aggregation indexes the loaded weight mapping at all five
category keys, so a successfully-loaded config whose weights mapping misses
any of the five keys makes `analyze_website_design` raise (surfaced as the
generic failure) instead of falling back to defaults; the built-in defaults
are installed exactly when reading the config file itself raised. -/
theorem weights_missing_key_raises :
    (∀ e : Unit, loadConfig (.error e) = defaultConfig) ∧
    (∀ (cfg : YamlConfig) (m : DesignMetrics),
      (List.lookup ("typography") (getWeights cfg) = none ∨
       List.lookup ("color") (getWeights cfg) = none ∨
       List.lookup ("layout") (getWeights cfg) = none ∨
       List.lookup ("responsiveness") (getWeights cfg) = none ∨
       List.lookup ("accessibility") (getWeights cfg) = none) →
      analyzeWebsiteDesign sdGood cfg (.ok m) true (.ok goodContent) =
        .error genericFailureMsg) := by
  constructor
  · intro e
    rfl
  · intro cfg m h
    have hnone : lookupFiveWeights (getWeights cfg) = none := lookupFive_eq_none h
    have hinner : analyzeWebsiteDesignInner sdGood cfg (.ok m) true (.ok goodContent) =
        .error ("KeyError") := by
      unfold analyzeWebsiteDesignInner
      rw [hnone]
      rfl
    unfold analyzeWebsiteDesign
    rw [hinner]

/-- Witness for C10 at a parsed config with an empty weights mapping. -/
theorem weights_missing_key_raises_witness :
    List.lookup ("typography") (getWeights cfgNoWeights) = none ∧
    analyzeWebsiteDesign sdGood cfgNoWeights (.ok DesignMetrics.init) true (.ok goodContent) =
      .error genericFailureMsg ∧
    loadConfig (.error ()) = defaultConfig :=
  ⟨rfl, weights_missing_key_raises.2 cfgNoWeights DesignMetrics.init (Or.inl rfl),
    weights_missing_key_raises.1 ()⟩

/-- A 40-character response with no visual-grounding vocabulary term. -/
def resp40 : List Char := List.replicate 40 'z'

/-- A 600-character response containing "the navigation color is clear". -/
def resp600 : List Char :=
  List.replicate 571 'a' ++ ("the navigation color is clear").data

/-- C4 counterexample: the 600-character response containing
"the navigation color is clear" is *rejected* by the gate for the
`pdf_report` analysis type — the default and the one the analysis pipeline
uses — because its minimum length is 1500 characters. -/
theorem vision_gate_600_cex :
    resp600.length = 600 ∧
    pyContains (pyLower resp600) ("the navigation color is clear").data = true ∧
    getMinLength ("pdf_report") = 1500 ∧
    exceptOk (visionResponseGate resp600 ("pdf_report")) = false := by
  exact ⟨by decide, by decide, rfl, by decide⟩

/-- C4 (amended): the gate accepts exactly when the stripped text is
non-empty, at least (not strictly above) the analysis type's minimum length,
and contains a grounding-vocabulary term; a 40-character no-vocabulary
response is rejected for both configured types, and the 600-character
response containing "the navigation color is clear" passes only for the
`quick` type (minimum 400), being rejected for `pdf_report` (minimum 1500). -/
theorem vision_gate_acceptance :
    (∀ (resp : List Char) (t : String),
      visionResponseGate resp t = .ok (pyStrip resp) ↔
        ((pyStrip resp).isEmpty = false ∧ getMinLength t ≤ (pyStrip resp).length ∧
          hasVisionIndicator (pyStrip resp) = true)) ∧
    exceptOk (visionResponseGate resp40 ("pdf_report")) = false ∧
    exceptOk (visionResponseGate resp40 ("quick")) = false ∧
    visionResponseGate resp600 ("quick") = .ok resp600 := by
  refine ⟨?_, by decide, by decide, rfl⟩
  intro resp t
  unfold visionResponseGate
  split_ifs with h1 h2 h3
  · simp [h1]
  · constructor
    · intro hc
      exact absurd hc (by simp)
    · intro hc
      omega
  · rw [Bool.not_eq_true'] at h3
    constructor
    · intro hc
      exact absurd hc (by simp)
    · intro hc
      rw [h3] at hc
      simp at hc
  · exact ⟨fun _ => ⟨by simpa using h1, by omega, by simpa using h3⟩, fun _ => rfl⟩

theorem isSaturated_red : isSaturated (255, 0, 0) = true := by
  have hmx : max (255 : ℕ) (max 0 0) = 255 := rfl
  have hmn : min (255 : ℕ) (min 0 0) = 0 := rfl
  simp only [isSaturated, hmx, hmn, Bool.and_eq_true, decide_eq_true_eq]
  constructor
  · norm_num
  · push_cast
    norm_num

/-- Metrics whose color extraction recorded one saturation violation
(exactly what `_analyze_colors` produces for the single swatch (255,0,0)). -/
def mSat : DesignMetrics :=
  { DesignMetrics.init with color := analyzeColors (some [(255, 0, 0)]) }

/-- C6 counterexample: a reachable metrics record with one saturation
violation has one violation-list entry across its categories, yet
`_count_total_issues` — and hence the compiled report's
`total_issues_found` — is 0: the count sums only six specific lists and
skips `saturation_violations` (among others). -/
theorem total_issues_cex :
    (analyzeColors (some [(255, 0, 0)])).saturationViolations = [(255, 0, 0)] ∧
    specTotalViolationLengths mSat = 1 ∧
    countTotalIssues mSat = 0 ∧
    (compiledFor mSat).reportSummary.totalIssuesFound = 0 := by
  have hfil : List.filter isSaturated [(255, 0, 0)] = [(255, 0, 0)] := by
    simp only [List.filter_cons, List.filter_nil, isSaturated_red,
      eq_self_iff_true, if_true]
  refine ⟨?_, ?_, rfl, rfl⟩
  · show List.filter isSaturated [(255, 0, 0)] = [(255, 0, 0)]
    exact hfil
  · show (0 : ℕ) + 0 + (List.filter isSaturated [(255, 0, 0)]).length + 0 + 0 + 0 + 0 + 0 +
      0 + 0 + 0 + 0 = 1
    rw [hfil]
    rfl

/-- C6 (amended): the report summary's `total_issues_found` equals the sum
of the lengths of exactly six lists — typography contrast violations, color
harmony violations, layout grid violations, responsiveness touch-target
violations, and accessibility missing-alt-text and ARIA violations — not of
every violation list the metrics record carries. -/
theorem total_issues_is_six_list_sum :
    ∀ (m : DesignMetrics) (r : AnalysisResult),
      analyzeWebsiteDesign sdGood defaultConfig (.ok m) true (.ok goodContent) = .ok r →
      r.reportSummary.totalIssuesFound =
        m.typography.contrastViolations.length + m.color.harmonyViolations.length +
        m.layout.gridViolations.length + m.responsiveness.touchTargetViolations.length +
        m.accessibility.missingAltText.length + m.accessibility.ariaViolations.length := by
  intro m r h
  have h' : Except.ok (compiledFor m) = (Except.ok r : Except String AnalysisResult) := h
  injection h' with h2
  rw [← h2]
  rfl

/-- Witness for C6's amended theorem at the saturated-swatch metrics. -/
theorem total_issues_is_six_list_sum_witness :
    analyzeWebsiteDesign sdGood defaultConfig (.ok mSat) true (.ok goodContent) =
      .ok (compiledFor mSat) ∧
    (compiledFor mSat).reportSummary.totalIssuesFound = 0 := by
  refine ⟨rfl, ?_⟩
  have h := total_issues_is_six_list_sum mSat (compiledFor mSat) rfl
  exact h.trans rfl

/-- Witness for C4's amended theorem: the 600-character grounded response is
accepted under the `quick` analysis type. -/
theorem vision_gate_acceptance_witness :
    visionResponseGate resp600 ("quick") = .ok (pyStrip resp600) :=
  (vision_gate_acceptance.1 resp600 ("quick")).mpr ⟨by decide, by decide, by decide⟩
